import Mathlib

/-!
# Verification of the truscope-fact-checker tiered verdict engine

The repository's own Python files (jules-scratch/verification/*.py) are
browser-driven test scripts; the verdict engine they exercise is not part
of the source set. Every engine definition below is therefore modelled
from the specification (and, where noted, from the serialized report shape
the test scripts assert against); each such definition says so in its doc
comment. Scores are embedded as rationals so that the weighted averages of
the scoring algorithm are exact.
-/

set_option maxHeartbeats 1000000

/-- Modelled from the spec: the sourceType enumeration of an EvidenceRecord
(scientific, report, news, factcheck, other). -/
inductive SourceType where
  | scientific
  | report
  | news
  | factcheck
  | other
  deriving DecidableEq, Repr

/-- Modelled from the spec: RawEvidence as returned by a ProviderAdapter,
all fields optional. -/
structure RawEvidence where
  publisher : Option String
  url : Option String
  quote : Option String
  score : Option ℚ
  type : Option SourceType
  deriving DecidableEq, Repr

/-- Modelled from the spec: a normalized, scored piece of evidence. -/
structure EvidenceRecord where
  publisher : String
  url : String
  quote : String
  sourceType : SourceType
  rawScore : Option ℚ
  finalScore : ℚ
  deriving DecidableEq, Repr

/-- Modelled from the spec: the per-tier outcome record. -/
structure TierOutcome where
  tier : String
  success : Bool
  confidence : ℚ
  evidenceCount : Nat
  processingTimeMs : Nat
  failureReason : Option String
  deriving DecidableEq, Repr

/-- Modelled from the spec: the stance label an external StanceClassifier
assigns to one evidence record. -/
inductive Stance where
  | supporting
  | refuting
  | neutral
  deriving DecidableEq, Repr

/-- Modelled from the spec: the ConflictDetector output. -/
structure ConflictAssessment where
  supporting : Nat
  refuting : Nat
  neutral : Nat
  conflict : Bool
  deriving DecidableEq, Repr

/-- Modelled from the spec: the final verdict labels. -/
inductive Verdict where
  | TRUE
  | MOSTLY_TRUE
  | MIXED
  | MOSTLY_FALSE
  | FALSE
  | UNVERIFIED
  deriving DecidableEq, Repr

/-- Modelled from the spec: TierRunner normalization of a raw adapter item
(missing url and publisher tolerated, quote defaults to the empty string,
sourceType defaults to other); finalScore is filled in by the scorer. -/
def normalizeRaw (r : RawEvidence) : EvidenceRecord :=
  { publisher := r.publisher.getD ""
    url := r.url.getD ""
    quote := r.quote.getD ""
    sourceType := r.type.getD SourceType.other
    rawScore := r.score
    finalScore := 0 }

/-- Modelled from the spec: base credibility weight by sourceType
(scientific 90, report 85, factcheck 80, news 60, other 40). -/
def baseWeight : SourceType → ℚ
  | SourceType.scientific => 90
  | SourceType.report => 85
  | SourceType.factcheck => 80
  | SourceType.news => 60
  | SourceType.other => 40

/-- Modelled from the spec: CredibilityScorer.score, a pure function.
Base weight by sourceType, adjusted to 0.6 times the prior plus 0.4 times
the adapter rawScore when that is present; a non-empty quote adds 5 capped
at 100; an empty publisher subtracts 10 floored at 0. -/
def CredibilityScorer.score (e : EvidenceRecord) : EvidenceRecord :=
  let prior := baseWeight e.sourceType
  let adjusted :=
    match e.rawScore with
    | some rs => 6 / 10 * prior + 4 / 10 * rs
    | none => prior
  let withQuote := if e.quote = "" then adjusted else min (adjusted + 5) 100
  let bounded := if e.publisher = "" then max (withQuote - 10) 0 else withQuote
  { e with finalScore := bounded }

/-- Sum of the finalScores of a list of evidence records. -/
def sumScores (l : List EvidenceRecord) : ℚ :=
  (l.map EvidenceRecord.finalScore).sum

/-- Modelled from the spec: the tier-level confidence aggregate of a tier's
evidence, taken as the arithmetic mean of the finalScores (0 when the tier
produced no evidence). -/
def tierConfidence (l : List EvidenceRecord) : ℚ :=
  if l = [] then 0 else sumScores l / l.length

/-- Modelled from the spec: the behavior a tier's adapter exhibits on one
invocation, as data: either a list of raw items or a failure reason
(provider error or timeout). -/
inductive AdapterResult where
  | ok (items : List RawEvidence)
  | err (reason : String)
  deriving DecidableEq, Repr

/-- Modelled from the spec: one entry of the ordered tier configuration
list, carrying the adapter behavior it will exhibit on this invocation. -/
structure TierConfig where
  id : String
  result : AdapterResult
  latencyMs : Nat
  deriving DecidableEq, Repr

/-- Modelled from the spec: TierRunner.run. On adapter error or timeout the
tier reports success false with a reason and zero evidence; otherwise every
item is normalized and scored. Failures are data, never exceptions. -/
def TierRunner.run (t : TierConfig) : TierOutcome × List EvidenceRecord :=
  match t.result with
  | AdapterResult.err reason =>
      ({ tier := t.id
         success := false
         confidence := 0
         evidenceCount := 0
         processingTimeMs := t.latencyMs
         failureReason := some reason }, [])
  | AdapterResult.ok items =>
      let ev := items.map (fun i => CredibilityScorer.score (normalizeRaw i))
      ({ tier := t.id
         success := true
         confidence := tierConfidence ev
         evidenceCount := ev.length
         processingTimeMs := t.latencyMs
         failureReason := none }, ev)

/-- Modelled from the spec: the recognized configuration thresholds of the
sequential-escalation policy. -/
structure Config where
  earlyExitConfidence : ℚ
  earlyExitMinEvidence : Nat
  conflictThreshold : ℚ
  deriving DecidableEq, Repr

/-- Modelled from the spec: the default thresholds (early-exit confidence
85, early-exit minimum evidence 2, conflict threshold 50). -/
def defaultConfig : Config :=
  { earlyExitConfidence := 85
    earlyExitMinEvidence := 2
    conflictThreshold := 50 }

/-- Modelled from the spec: structural validity of the configured
thresholds. -/
def validThresholds (cfg : Config) : Bool :=
  decide (0 ≤ cfg.earlyExitConfidence) && decide (cfg.earlyExitConfidence ≤ 100) &&
    decide (0 ≤ cfg.conflictThreshold)

/-- Modelled from the spec: TierOrchestrator under the sequential-escalation
policy. Run a tier; if its confidence reaches the early-exit threshold and
its evidence count reaches the minimum, stop with only that tier; otherwise
run the remaining tiers and merge evidence in tier order. Every attempted
tier contributes exactly one TierOutcome. -/
def orchestrate (cfg : Config) : List TierConfig → List TierOutcome × List EvidenceRecord
  | [] => ([], [])
  | t :: rest =>
      let p := TierRunner.run t
      if cfg.earlyExitConfidence ≤ p.1.confidence ∧
          cfg.earlyExitMinEvidence ≤ p.1.evidenceCount then
        ([p.1], p.2)
      else
        let q := orchestrate cfg rest
        (p.1 :: q.1, p.2 ++ q.2)

/-- Modelled from the spec: ConflictDetector.assess with a caller-supplied
stance classifier. The conflict flag is set when the summed finalScore of
the supporting group and of the refuting group each exceed the threshold
(default 50). -/
def assess (threshold : ℚ) (stance : EvidenceRecord → Stance)
    (l : List EvidenceRecord) : ConflictAssessment :=
  let sup := l.filter (fun e => decide (stance e = Stance.supporting))
  let ref := l.filter (fun e => decide (stance e = Stance.refuting))
  let neu := l.filter (fun e => decide (stance e = Stance.neutral))
  { supporting := sup.length
    refuting := ref.length
    neutral := neu.length
    conflict := decide (threshold < sumScores sup) && decide (threshold < sumScores ref) }

/-- The triple returned by VerdictAggregator.aggregate. -/
structure AggregateResult where
  verdict : Verdict
  score : ℚ
  reasoning : String
  deriving DecidableEq, Repr

/-- Modelled from the spec: the self-weighted mean of the finalScores (each
record weighted by its own finalScore). -/
def weightedScore (l : List EvidenceRecord) : ℚ :=
  (l.map (fun e => e.finalScore * e.finalScore)).sum / sumScores l

/-- Arithmetic mean of the finalScores of an evidence list. -/
def meanScore (l : List EvidenceRecord) : ℚ :=
  sumScores l / l.length

/-- Modelled from the spec: the verdict label thresholds on the final
score, the bands read as half-open intervals. -/
def labelOf (s : ℚ) : Verdict :=
  if 85 ≤ s then Verdict.TRUE
  else if 65 ≤ s then Verdict.MOSTLY_TRUE
  else if 40 ≤ s then Verdict.MIXED
  else if 15 ≤ s then Verdict.MOSTLY_FALSE
  else Verdict.FALSE

/-- Modelled from the spec: VerdictAggregator.aggregate. The final score is
the self-weighted mean of the evidence finalScores, multiplied by the 0.85
conflict penalty exactly when the conflict flag is set; with no evidence the
score is 0 and the verdict UNVERIFIED. -/
def aggregate (l : List EvidenceRecord) (outcomes : List TierOutcome)
    (ca : ConflictAssessment) : AggregateResult :=
  if l = [] then
    { verdict := Verdict.UNVERIFIED
      score := 0
      reasoning := "no evidence found across " ++ toString outcomes.length ++ " tiers" }
  else
    let s := weightedScore l * (if ca.conflict then 85 / 100 else 1)
    { verdict := labelOf s
      score := s
      reasoning :=
        (if ca.conflict then "conflicting evidence; " else "") ++ "weighted evidence score" }

/-- Descending credibility order on evidence: a precedes b when b's
finalScore is at most a's. -/
def evGE (a b : EvidenceRecord) : Prop :=
  b.finalScore ≤ a.finalScore

instance : DecidableRel evGE :=
  fun a b => inferInstanceAs (Decidable (b.finalScore ≤ a.finalScore))

instance : IsTotal EvidenceRecord evGE :=
  ⟨fun a b => le_total b.finalScore a.finalScore⟩

instance : IsTrans EvidenceRecord evGE :=
  ⟨fun _ _ _ h1 h2 => le_trans h2 h1⟩

/-- Modelled from the spec: the stable descending sort of the evidence list
by finalScore used by the ReportAssembler (insertion sort, which keeps
records of equal finalScore in their original relative order). -/
def sortEvidence (l : List EvidenceRecord) : List EvidenceRecord :=
  List.insertionSort evGE l

/-- The sources_consulted counters of the report metadata. -/
structure SourcesConsulted where
  total : Nat
  high_credibility : Nat
  conflicting : Nat
  deriving DecidableEq, Repr

/-- The metadata block of a VerdictReport. -/
structure ReportMetadata where
  method_used : String
  processing_time_ms : Nat
  apis_used : List String
  sources_consulted : SourcesConsulted
  warnings : List String
  tier_breakdown : List TierOutcome
  deriving DecidableEq, Repr

/-- Modelled from the spec: the VerdictReport record. -/
structure VerdictReport where
  id : Nat
  originalText : String
  final_verdict : Verdict
  final_score : ℚ
  reasoning : String
  evidence : List EvidenceRecord
  metadata : ReportMetadata
  deriving DecidableEq, Repr

/-- Warnings collected from failed tiers. -/
def tierWarnings (outcomes : List TierOutcome) : List String :=
  outcomes.filterMap (fun o =>
    o.failureReason.map (fun reason => "tier " ++ o.tier ++ " failed: " ++ reason))

/-- Modelled from the spec: ReportAssembler. Pure packaging: sorts the
evidence descending by finalScore, computes sources_consulted (total, the
count of records with finalScore at least 70, and the report-level conflict
indicator), copies apis_used from the tiers that produced evidence, sums
processing time, and collects warnings. -/
def assemble (text : String) (res : AggregateResult) (evidence : List EvidenceRecord)
    (outcomes : List TierOutcome) (ca : ConflictAssessment) : VerdictReport :=
  let sorted := sortEvidence evidence
  { id := 0
    originalText := text
    final_verdict := res.verdict
    final_score := res.score
    reasoning := res.reasoning
    evidence := sorted
    metadata :=
      { method_used := "tiered-verification"
        processing_time_ms := (outcomes.map TierOutcome.processingTimeMs).sum
        apis_used := (outcomes.filter (fun o => decide (o.evidenceCount ≠ 0))).map TierOutcome.tier
        sources_consulted :=
          { total := sorted.length
            high_credibility := (sorted.filter (fun e => decide ((70 : ℚ) ≤ e.finalScore))).length
            conflicting := if ca.conflict then 1 else 0 }
        warnings := (if evidence = [] then ["no evidence found"] else []) ++ tierWarnings outcomes
        tier_breakdown := outcomes } }

/-- Modelled from the spec: the ConfigurationError taxonomy, the only error
class allowed to fail the analyze call outright. -/
inductive ConfigurationError where
  | emptyTierList
  | invalidThresholds
  deriving DecidableEq, Repr

/-- Modelled from the spec: the single entry point
analyze(claimText, tierConfigs). It fails only on a caller contract
violation (empty tier list or invalid thresholds); otherwise it always
returns a complete VerdictReport. -/
def analyze (cfg : Config) (stance : EvidenceRecord → Stance)
    (tiers : List TierConfig) (text : String) :
    Except ConfigurationError VerdictReport :=
  if tiers = [] then Except.error ConfigurationError.emptyTierList
  else if validThresholds cfg = false then Except.error ConfigurationError.invalidThresholds
  else
    let p := orchestrate cfg tiers
    let ca := assess cfg.conflictThreshold stance p.2
    Except.ok (assemble text (aggregate p.2 p.1 ca) p.2 p.1 ca)

/-- One evidence entry of the serialized report. -/
structure SerializedEvidence where
  id : Nat
  publisher : String
  url : String
  quote : String
  score : ℚ
  deriving DecidableEq, Repr

/-- The serialized report record. -/
structure SerializedReport where
  id : Nat
  final_verdict : Verdict
  final_score : ℚ
  evidence : List SerializedEvidence
  deriving DecidableEq, Repr

/-- Modelled from the spec and from the serialized report shape asserted by
jules-scratch/verification/verify_integration.py, whose mock carries a
report id and one id per evidence record. The id namespaces
are embedded in ℕ: the report id is 0 and the k-th evidence record gets
id k + 1. -/
def serializeReport (r : VerdictReport) : SerializedReport :=
  { id := 0
    final_verdict := r.final_verdict
    final_score := r.final_score
    evidence := r.evidence.enum.map (fun p =>
      { id := p.1 + 1
        publisher := p.2.publisher
        url := p.2.url
        quote := p.2.quote
        score := p.2.finalScore }) }

/-! Concrete inputs used to evaluate the model on closed instances. -/

/-- A stance classifier that marks everything neutral. -/
def stance0 : EvidenceRecord → Stance := fun _ => Stance.neutral

/-- A raw adapter item with every field present and a high raw score. -/
def rawHigh : RawEvidence :=
  { publisher := some "NASA"
    url := some "u"
    quote := some "q"
    score := some 100
    type := some SourceType.scientific }

/-- A tier whose adapter returns three high-credibility items. -/
def demoTier : TierConfig :=
  { id := "t1", result := AdapterResult.ok [rawHigh, rawHigh, rawHigh], latencyMs := 5 }

/-- A tier whose adapter times out. -/
def failTier : TierConfig :=
  { id := "t9", result := AdapterResult.err "timeout", latencyMs := 7 }

/-- A conflict assessment with no evidence in any group. -/
def emptyCA : ConflictAssessment :=
  { supporting := 0, refuting := 0, neutral := 0, conflict := false }

/-- A fallback report used only as the default of Option.getD below. -/
def fallbackReport : VerdictReport :=
  assemble "" { verdict := Verdict.UNVERIFIED, score := 0, reasoning := "" } [] [] emptyCA

/-- The analyze call on the three-item demo tier. -/
def demoRun : Except ConfigurationError VerdictReport :=
  analyze defaultConfig stance0 [demoTier] "c"

/-- The report the demo run returns. -/
def demoReport : VerdictReport := demoRun.toOption.getD fallbackReport

/-- The analyze call on the failing tier alone. -/
def failRun : Except ConfigurationError VerdictReport :=
  analyze defaultConfig stance0 [failTier] "c"

/-- An evidence record with a given publisher and finalScore, other fields
defaulted. -/
def mkEv (p : String) (s : ℚ) : EvidenceRecord :=
  { publisher := p
    url := ""
    quote := ""
    sourceType := SourceType.other
    rawScore := none
    finalScore := s }

/-- Three uniform records of finalScore 40 (arithmetic mean 40). -/
def evSetA : List EvidenceRecord := [mkEv "a1" 40, mkEv "a2" 40, mkEv "a3" 40]

/-- Records of finalScore 0, 60, 60 (arithmetic mean 40, but self-weighted
mean 60). -/
def evSetB : List EvidenceRecord := [mkEv "n" 0, mkEv "s" 60, mkEv "r" 60]

/-- Two records of finalScore 60 (self-weighted mean 60). -/
def eqA : List EvidenceRecord := [mkEv "x" 60, mkEv "y" 60]

/-- A stance classifier that marks everything supporting. -/
def stanceA : EvidenceRecord → Stance := fun _ => Stance.supporting

/-- A stance classifier keyed on the publisher field. -/
def stanceB : EvidenceRecord → Stance := fun e =>
  if e.publisher = "r" then Stance.refuting
  else if e.publisher = "n" then Stance.neutral
  else Stance.supporting

/-- A one-evidence report assembled directly. -/
def tinyReport : VerdictReport :=
  assemble "tiny" { verdict := Verdict.MIXED, score := 50, reasoning := "r" }
    [mkEv "p" 50] [] emptyCA

/-- The serialized form of the single evidence record of tinyReport. -/
def tinySerEv : SerializedEvidence :=
  { id := 1, publisher := "p", url := "", quote := "", score := 50 }

/-! Helper lemmas. -/

/-- The shape of every successfully returned report: it is the assembly of
the orchestrated evidence, outcomes, and conflict assessment. -/
theorem analyze_ok_shape (cfg : Config) (stance : EvidenceRecord → Stance)
    (tiers : List TierConfig) (text : String) (r : VerdictReport)
    (h : analyze cfg stance tiers text = Except.ok r) :
    r = assemble text
      (aggregate (orchestrate cfg tiers).2 (orchestrate cfg tiers).1
        (assess cfg.conflictThreshold stance (orchestrate cfg tiers).2))
      (orchestrate cfg tiers).2 (orchestrate cfg tiers).1
      (assess cfg.conflictThreshold stance (orchestrate cfg tiers).2) := by
  unfold analyze at h
  by_cases h1 : tiers = []
  · rw [if_pos h1] at h
    exact absurd h (by simp)
  · rw [if_neg h1] at h
    by_cases h2 : validThresholds cfg = false
    · rw [if_pos h2] at h
      exact absurd h (by simp)
    · rw [if_neg h2] at h
      simp only [Except.ok.injEq] at h
      exact h.symm

/-- sortEvidence is a permutation of its input. -/
theorem sortEvidence_perm (l : List EvidenceRecord) : List.Perm (sortEvidence l) l :=
  List.perm_insertionSort evGE l

/-- sortEvidence is empty exactly when its input is. -/
theorem sortEvidence_eq_nil_iff (l : List EvidenceRecord) :
    sortEvidence l = [] ↔ l = [] := by
  rw [← List.length_eq_zero, ← List.length_eq_zero, (sortEvidence_perm l).length_eq]

/-- sortEvidence sorts descending by finalScore. -/
theorem sortEvidence_sorted (l : List EvidenceRecord) :
    List.Pairwise (fun a b => b.finalScore ≤ a.finalScore) (sortEvidence l) :=
  List.sorted_insertionSort evGE l

/-- Ordered insertion preserves the sublist of records at any fixed
finalScore: the inserted record lands before every record of equal score
already present only when it would also land before strictly greater ones,
so the filter at one score value sees it first. -/
theorem filter_orderedInsert (c : ℚ) (a : EvidenceRecord) (l : List EvidenceRecord) :
    (List.orderedInsert evGE a l).filter (fun e => decide (e.finalScore = c)) =
      (a :: l).filter (fun e => decide (e.finalScore = c)) := by
  induction l with
  | nil => rfl
  | cons b t ih =>
      by_cases hab : evGE a b
      · rw [List.orderedInsert, if_pos hab]
      · rw [List.orderedInsert, if_neg hab]
        have hlt : a.finalScore < b.finalScore := lt_of_not_le hab
        by_cases ha : a.finalScore = c
        · have hb : ¬ b.finalScore = c := by
            intro hb
            exact absurd hlt (by rw [ha, hb]; exact lt_irrefl c)
          simp [List.filter_cons, ha, hb, ih]
        · simp [List.filter_cons, ha, ih]

/-- Stability of sortEvidence: at every fixed finalScore value the sorted
list keeps the records in their original relative order. -/
theorem filter_sortEvidence (c : ℚ) (l : List EvidenceRecord) :
    (sortEvidence l).filter (fun e => decide (e.finalScore = c)) =
      l.filter (fun e => decide (e.finalScore = c)) := by
  induction l with
  | nil => rfl
  | cons a t ih =>
      have h1 := filter_orderedInsert c a (sortEvidence t)
      have h2 : sortEvidence (a :: t) = List.orderedInsert evGE a (sortEvidence t) := rfl
      rw [h2, h1]
      simp [List.filter_cons, ih]

/-- If every configured tier fails, orchestration gathers no evidence. -/
theorem orchestrate_all_err (cfg : Config) (tiers : List TierConfig)
    (hfail : ∀ t ∈ tiers, ∃ reason, t.result = AdapterResult.err reason) :
    (orchestrate cfg tiers).2 = [] := by
  induction tiers with
  | nil => rfl
  | cons t rest ih =>
      obtain ⟨reason, hr⟩ := hfail t (List.mem_cons_self t rest)
      have hrun : (TierRunner.run t).2 = [] := by
        simp [TierRunner.run, hr]
      have hrest := ih (fun u hu => hfail u (List.mem_cons_of_mem t hu))
      simp only [orchestrate]
      split
      · exact hrun
      · simp [hrun, hrest]

/-! Claim theorems. -/

/-- C1: for every returned VerdictReport, the final_verdict label is
determined by final_score through the fixed thresholds: at least 85 TRUE,
at least 65 MOSTLY TRUE, at least 40 MIXED, at least 15 MOSTLY FALSE,
below 15 with evidence FALSE, and with no evidence UNVERIFIED (the bands
read as half-open intervals on the rational score). -/
theorem claim1_verdict_thresholds (cfg : Config) (stance : EvidenceRecord → Stance)
    (tiers : List TierConfig) (text : String) (r : VerdictReport)
    (h : analyze cfg stance tiers text = Except.ok r) :
    r.final_verdict =
      (if r.evidence = [] then Verdict.UNVERIFIED
       else if 85 ≤ r.final_score then Verdict.TRUE
       else if 65 ≤ r.final_score then Verdict.MOSTLY_TRUE
       else if 40 ≤ r.final_score then Verdict.MIXED
       else if 15 ≤ r.final_score then Verdict.MOSTLY_FALSE
       else Verdict.FALSE) := by
  have hr := analyze_ok_shape cfg stance tiers text r h
  subst hr
  by_cases hev : (orchestrate cfg tiers).2 = []
  · simp [assemble, aggregate, hev, sortEvidence]
  · have hs : ¬ sortEvidence (orchestrate cfg tiers).2 = [] := by
      rw [sortEvidence_eq_nil_iff]
      exact hev
    simp only [assemble, aggregate, if_neg hev, if_neg hs, labelOf]

/-- C1 witness: the demo run returns a report obeying the threshold map. -/
theorem claim1_witness :
    analyze defaultConfig stance0 [demoTier] "c" = Except.ok demoReport ∧
    demoReport.final_verdict =
      (if demoReport.evidence = [] then Verdict.UNVERIFIED
       else if 85 ≤ demoReport.final_score then Verdict.TRUE
       else if 65 ≤ demoReport.final_score then Verdict.MOSTLY_TRUE
       else if 40 ≤ demoReport.final_score then Verdict.MIXED
       else if 15 ≤ demoReport.final_score then Verdict.MOSTLY_FALSE
       else Verdict.FALSE) :=
  ⟨rfl, claim1_verdict_thresholds defaultConfig stance0 [demoTier] "c" demoReport rfl⟩

/-- C2: for every returned VerdictReport, the evidence sequence is sorted
in descending order of finalScore, and the sort is stable: at each fixed
finalScore value the records appear in the original provider-return order
(the order in which orchestration merged them). -/
theorem claim2_evidence_sorted_stable (cfg : Config) (stance : EvidenceRecord → Stance)
    (tiers : List TierConfig) (text : String) (r : VerdictReport)
    (h : analyze cfg stance tiers text = Except.ok r) :
    List.Pairwise (fun a b => b.finalScore ≤ a.finalScore) r.evidence ∧
    ∀ c : ℚ, r.evidence.filter (fun e => decide (e.finalScore = c)) =
      (orchestrate cfg tiers).2.filter (fun e => decide (e.finalScore = c)) := by
  have hr := analyze_ok_shape cfg stance tiers text r h
  subst hr
  constructor
  · exact sortEvidence_sorted (orchestrate cfg tiers).2
  · intro c
    exact filter_sortEvidence c (orchestrate cfg tiers).2

/-- C2 witness: the demo report is sorted and stable against its merged
evidence. -/
theorem claim2_witness :
    List.Pairwise (fun a b => b.finalScore ≤ a.finalScore) demoReport.evidence ∧
    ∀ c : ℚ, demoReport.evidence.filter (fun e => decide (e.finalScore = c)) =
      (orchestrate defaultConfig [demoTier]).2.filter (fun e => decide (e.finalScore = c)) :=
  claim2_evidence_sorted_stable defaultConfig stance0 [demoTier] "c" demoReport rfl

/-- C3: CredibilityScorer.score is pure, deterministic and total: the
finalScore it assigns is the source-type base weight, replaced by the
weighted average of 0.6 prior and 0.4 rawScore when rawScore is present,
plus 5 capped at 100 when the quote is non-empty, minus 10 floored at 0
when the publisher is empty; all other fields of the input record are
returned unchanged (no mutation), and rescoring the scored record yields
the same finalScore. -/
theorem claim3_scorer_pure (e : EvidenceRecord) :
    (CredibilityScorer.score e).finalScore =
      (let prior := baseWeight e.sourceType
       let adjusted :=
         match e.rawScore with
         | some rs => 6 / 10 * prior + 4 / 10 * rs
         | none => prior
       let withQuote := if e.quote = "" then adjusted else min (adjusted + 5) 100
       if e.publisher = "" then max (withQuote - 10) 0 else withQuote) ∧
    (CredibilityScorer.score e).publisher = e.publisher ∧
    (CredibilityScorer.score e).url = e.url ∧
    (CredibilityScorer.score e).quote = e.quote ∧
    (CredibilityScorer.score e).sourceType = e.sourceType ∧
    (CredibilityScorer.score e).rawScore = e.rawScore ∧
    (CredibilityScorer.score (CredibilityScorer.score e)).finalScore =
      (CredibilityScorer.score e).finalScore :=
  ⟨rfl, rfl, rfl, rfl, rfl, rfl, rfl⟩

/-- C8: for every returned VerdictReport, sources_consulted.total equals
the length of the evidence sequence. -/
theorem claim8_total_count (cfg : Config) (stance : EvidenceRecord → Stance)
    (tiers : List TierConfig) (text : String) (r : VerdictReport)
    (h : analyze cfg stance tiers text = Except.ok r) :
    r.metadata.sources_consulted.total = r.evidence.length := by
  have hr := analyze_ok_shape cfg stance tiers text r h
  subst hr
  rfl

/-- C8 witness: the demo report counts its two evidence records. -/
theorem claim8_witness :
    demoReport.metadata.sources_consulted.total = demoReport.evidence.length :=
  claim8_total_count defaultConfig stance0 [demoTier] "c" demoReport rfl

/-- C9: for every returned VerdictReport, high_credibility counts the
evidence records of finalScore at least 70, and conflicting is the single
report-level indicator of the run's conflict assessment (1 when its
conflict flag is true, else 0). -/
theorem claim9_source_counts (cfg : Config) (stance : EvidenceRecord → Stance)
    (tiers : List TierConfig) (text : String) (r : VerdictReport)
    (h : analyze cfg stance tiers text = Except.ok r) :
    r.metadata.sources_consulted.high_credibility =
      (r.evidence.filter (fun e => decide ((70 : ℚ) ≤ e.finalScore))).length ∧
    r.metadata.sources_consulted.conflicting =
      (if (assess cfg.conflictThreshold stance (orchestrate cfg tiers).2).conflict
       then 1 else 0) := by
  have hr := analyze_ok_shape cfg stance tiers text r h
  subst hr
  exact ⟨rfl, rfl⟩

/-- C9 witness: the demo report's counters. -/
theorem claim9_witness :
    demoReport.metadata.sources_consulted.high_credibility =
      (demoReport.evidence.filter (fun e => decide ((70 : ℚ) ≤ e.finalScore))).length ∧
    demoReport.metadata.sources_consulted.conflicting =
      (if (assess defaultConfig.conflictThreshold stance0
            (orchestrate defaultConfig [demoTier]).2).conflict
       then 1 else 0) :=
  claim9_source_counts defaultConfig stance0 [demoTier] "c" demoReport rfl

/-- C4: with a structurally valid configuration (valid thresholds and a
non-empty tier list) analyze always returns a complete VerdictReport — it
never fails — and when every configured tier fails or times out the report
carries final_verdict UNVERIFIED, final_score 0, and a non-empty warnings
sequence, so degradation is reported through warnings rather than call
failure. -/
theorem claim4_total_and_degradation (cfg : Config) (stance : EvidenceRecord → Stance)
    (tiers : List TierConfig) (text : String)
    (hv : validThresholds cfg = true) (hne : tiers ≠ []) :
    (∃ r, analyze cfg stance tiers text = Except.ok r) ∧
    ((∀ t ∈ tiers, ∃ reason, t.result = AdapterResult.err reason) →
      ∀ r, analyze cfg stance tiers text = Except.ok r →
        r.final_verdict = Verdict.UNVERIFIED ∧ r.final_score = 0 ∧
        r.metadata.warnings ≠ []) := by
  have hok : analyze cfg stance tiers text =
      Except.ok (assemble text
        (aggregate (orchestrate cfg tiers).2 (orchestrate cfg tiers).1
          (assess cfg.conflictThreshold stance (orchestrate cfg tiers).2))
        (orchestrate cfg tiers).2 (orchestrate cfg tiers).1
        (assess cfg.conflictThreshold stance (orchestrate cfg tiers).2)) := by
    unfold analyze
    rw [if_neg hne, if_neg (by rw [hv]; simp)]
  constructor
  · exact ⟨_, hok⟩
  · intro hfail r h
    have hr := analyze_ok_shape cfg stance tiers text r h
    subst hr
    have hev : (orchestrate cfg tiers).2 = [] := orchestrate_all_err cfg tiers hfail
    refine ⟨?_, ?_, ?_⟩
    · simp [assemble, aggregate, hev]
    · simp [assemble, aggregate, hev]
    · simp [assemble, hev]

/-- C4 witness: a single timed-out tier still yields a report, with
verdict UNVERIFIED, score 0, and a warning. -/
theorem claim4_witness :
    (∃ r, analyze defaultConfig stance0 [failTier] "c" = Except.ok r) ∧
    ((∀ t ∈ [failTier], ∃ reason, t.result = AdapterResult.err reason) →
      ∀ r, analyze defaultConfig stance0 [failTier] "c" = Except.ok r →
        r.final_verdict = Verdict.UNVERIFIED ∧ r.final_score = 0 ∧
        r.metadata.warnings ≠ []) :=
  claim4_total_and_degradation defaultConfig stance0 [failTier] "c" rfl (by simp)

/-- C5: an empty tier configuration list makes analyze fail with
ConfigurationError and produce no report, and configuration violations
(empty tier list or invalid thresholds) are the only conditions under which
analyze fails outright. -/
theorem claim5_configuration_error (cfg : Config) (stance : EvidenceRecord → Stance)
    (tiers : List TierConfig) (text : String) :
    analyze cfg stance [] text = Except.error ConfigurationError.emptyTierList ∧
    (∀ er, analyze cfg stance tiers text = Except.error er →
      tiers = [] ∨ validThresholds cfg = false) := by
  constructor
  · rfl
  · intro er h
    by_cases h1 : tiers = []
    · exact Or.inl h1
    · right
      by_cases h2 : validThresholds cfg = false
      · exact h2
      · exfalso
        unfold analyze at h
        rw [if_neg h1, if_neg h2] at h
        simp at h

/-- C5 witness: the empty configuration fails with the empty-tier-list
error, exhibiting a configuration violation as the cause. -/
theorem claim5_witness :
    analyze defaultConfig stance0 [] "c" = Except.error ConfigurationError.emptyTierList ∧
    (([] : List TierConfig) = [] ∨ validThresholds defaultConfig = false) :=
  ⟨(claim5_configuration_error defaultConfig stance0 [] "c").1,
   (claim5_configuration_error defaultConfig stance0 [] "c").2
     ConfigurationError.emptyTierList rfl⟩

/-- C6: under sequential escalation with default thresholds, when tier 1's
outcome has confidence at least 85 and at least 2 evidence records, the
orchestrator never invokes any later tier: the run stops with exactly tier
1's outcome in tier_breakdown and aggregates only tier 1's evidence. -/
theorem claim6_early_exit (stance : EvidenceRecord → Stance) (t1 : TierConfig)
    (rest : List TierConfig) (text : String)
    (hc : (85 : ℚ) ≤ (TierRunner.run t1).1.confidence)
    (he : 2 ≤ (TierRunner.run t1).1.evidenceCount) :
    orchestrate defaultConfig (t1 :: rest) =
      ([(TierRunner.run t1).1], (TierRunner.run t1).2) ∧
    ∀ r, analyze defaultConfig stance (t1 :: rest) text = Except.ok r →
      r.metadata.tier_breakdown = [(TierRunner.run t1).1] ∧
      r.evidence = sortEvidence (TierRunner.run t1).2 := by
  have hcond : defaultConfig.earlyExitConfidence ≤ (TierRunner.run t1).1.confidence ∧
      defaultConfig.earlyExitMinEvidence ≤ (TierRunner.run t1).1.evidenceCount := ⟨hc, he⟩
  have horch : orchestrate defaultConfig (t1 :: rest) =
      ([(TierRunner.run t1).1], (TierRunner.run t1).2) := by
    show (if defaultConfig.earlyExitConfidence ≤ (TierRunner.run t1).1.confidence ∧
          defaultConfig.earlyExitMinEvidence ≤ (TierRunner.run t1).1.evidenceCount then
        ([(TierRunner.run t1).1], (TierRunner.run t1).2)
      else
        ((TierRunner.run t1).1 :: (orchestrate defaultConfig rest).1,
          (TierRunner.run t1).2 ++ (orchestrate defaultConfig rest).2)) =
      ([(TierRunner.run t1).1], (TierRunner.run t1).2)
    rw [if_pos hcond]
  refine ⟨horch, ?_⟩
  intro r h
  have hr := analyze_ok_shape defaultConfig stance (t1 :: rest) text r h
  subst hr
  rw [horch]
  exact ⟨rfl, rfl⟩

/-- C6 witness: a first tier with three scored records at confidence 99
short-circuits past any later tier (here a failing second tier). -/
theorem claim6_witness :
    orchestrate defaultConfig (demoTier :: [failTier]) =
      ([(TierRunner.run demoTier).1], (TierRunner.run demoTier).2) ∧
    ∀ r, analyze defaultConfig stance0 (demoTier :: [failTier]) "c" = Except.ok r →
      r.metadata.tier_breakdown = [(TierRunner.run demoTier).1] ∧
      r.evidence = sortEvidence (TierRunner.run demoTier).2 :=
  claim6_early_exit stance0 demoTier [failTier] "c"
    (by
      simp [TierRunner.run, demoTier, tierConfidence, sumScores, CredibilityScorer.score,
        normalizeRaw, rawHigh, baseWeight]
      norm_num)
    (by simp [TierRunner.run, demoTier])

/-- C7 counterexample: the claim quantifies over evidence sets with
identical mean finalScore, but the aggregator's final score is the
self-weighted mean, not the arithmetic mean. The sets evSetA (40, 40, 40,
all supporting, not conflicting) and evSetB (0, 60, 60, supporting and
refuting 60 each, conflicting) have the same arithmetic mean 40, yet the
conflicting set scores 51 — strictly higher than the non-conflicting 40,
not lower. -/
theorem claim7_counterexample :
    meanScore evSetA = meanScore evSetB ∧
    (assess 50 stanceA evSetA).conflict = false ∧
    (assess 50 stanceB evSetB).conflict = true ∧
    ¬ ((aggregate evSetB [] (assess 50 stanceB evSetB)).score <
        (aggregate evSetA [] (assess 50 stanceA evSetA)).score) := by
  refine ⟨?_, ?_, ?_, ?_⟩
  · simp [meanScore, sumScores, evSetA, evSetB, mkEv]
    norm_num
  · simp [assess, evSetA, mkEv, stanceA, sumScores, List.filter_cons]
  · simp [assess, evSetB, mkEv, stanceB, sumScores, List.filter_cons]
    norm_num
  · simp [aggregate, weightedScore, assess, evSetA, evSetB, mkEv, stanceA, stanceB,
      sumScores, List.filter_cons]
    norm_num

/-- The aggregate score of a non-empty evidence list is the self-weighted
mean times the conflict factor. -/
theorem aggregate_score (l : List EvidenceRecord) (outs : List TierOutcome)
    (ca : ConflictAssessment) (hne : l ≠ []) :
    (aggregate l outs ca).score = weightedScore l * (if ca.conflict then 85 / 100 else 1) := by
  unfold aggregate
  rw [if_neg hne]

/-- C7 amended: VerdictAggregator applies the multiplicative 0.85 conflict
penalty to the self-weighted mean exactly when the conflict flag is true;
consequently, for any two non-empty evidence sets whose self-weighted mean
finalScore is identical and positive, where one is flagged conflicting and
the other is not, the conflicting set yields a strictly lower final_score. -/
theorem claim7_amended (e eA eB : List EvidenceRecord)
    (outs outsA outsB : List TierOutcome)
    (ca caA caB : ConflictAssessment)
    (hne : e ≠ []) (hneA : eA ≠ []) (hneB : eB ≠ [])
    (hm : weightedScore eA = weightedScore eB)
    (hpos : 0 < weightedScore eA)
    (hA : caA.conflict = false) (hB : caB.conflict = true) :
    (aggregate e outs ca).score =
      weightedScore e * (if ca.conflict then 85 / 100 else 1) ∧
    (aggregate eB outsB caB).score < (aggregate eA outsA caA).score := by
  constructor
  · exact aggregate_score e outs ca hne
  · rw [aggregate_score eA outsA caA hneA, aggregate_score eB outsB caB hneB, hA, hB,
      if_pos rfl, if_neg (by simp), mul_one, ← hm]
    exact mul_lt_of_lt_one_right hpos (by norm_num)

/-- C7 amended witness: eqA (60, 60, all supporting) and evSetB (0, 60, 60,
conflicting) share the self-weighted mean 60; the conflicting set scores
51, strictly below 60. -/
theorem claim7_amended_witness :
    (aggregate eqA [] (assess 50 stanceA eqA)).score =
      weightedScore eqA * (if (assess 50 stanceA eqA).conflict then 85 / 100 else 1) ∧
    (aggregate evSetB [] (assess 50 stanceB evSetB)).score <
      (aggregate eqA [] (assess 50 stanceA eqA)).score :=
  claim7_amended eqA eqA evSetB [] [] []
    (assess 50 stanceA eqA) (assess 50 stanceA eqA) (assess 50 stanceB evSetB)
    (by simp [eqA, mkEv]) (by simp [eqA, mkEv]) (by simp [evSetB, mkEv])
    (by simp [weightedScore, sumScores, eqA, evSetB, mkEv] <;> norm_num)
    (by simp [weightedScore, sumScores, eqA, mkEv] <;> norm_num)
    (by simp [assess, eqA, mkEv, stanceA, sumScores, List.filter_cons] <;> norm_num)
    (by simp [assess, evSetB, mkEv, stanceB, sumScores, List.filter_cons] <;> norm_num)

/-- C10 (implicit): every serialized report gives each evidence record its
own id, pairwise distinct and distinct from the report-level id — a field
the spec's EvidenceRecord data model does not mention, but the serialized
shape in verify_integration.py does. -/
theorem claim10_serialized_ids (r : VerdictReport) :
    ((serializeReport r).evidence.map SerializedEvidence.id).Nodup ∧
    ∀ s ∈ (serializeReport r).evidence, s.id ≠ (serializeReport r).id := by
  constructor
  · have h : (serializeReport r).evidence.map SerializedEvidence.id =
        r.evidence.enum.map (fun p => p.1 + 1) := by
      simp only [serializeReport, List.map_map]
      rfl
    rw [h,
      show (fun p : Nat × EvidenceRecord => p.1 + 1) = ((fun i => i + 1) ∘ Prod.fst) from rfl,
      ← List.map_map]
    exact List.Nodup.map (fun a b hab => by omega) (List.nodup_enum_map_fst r.evidence)
  · intro s hs
    obtain ⟨p, _, hp⟩ := List.mem_map.mp hs
    rw [← hp]
    show p.1 + 1 ≠ 0
    omega

/-- C10 witness: the one-record tinyReport serializes with evidence id 1,
distinct from the report id 0. -/
theorem claim10_witness :
    ((serializeReport tinyReport).evidence.map SerializedEvidence.id).Nodup ∧
    tinySerEv.id ≠ (serializeReport tinyReport).id :=
  ⟨(claim10_serialized_ids tinyReport).1,
   (claim10_serialized_ids tinyReport).2 tinySerEv (by
     simp [serializeReport, tinyReport, tinySerEv, assemble, sortEvidence, mkEv, emptyCA])⟩
